import Mathlib

/-!
Shallow embedding of the survey-message lifecycle and inbound-response
reconciliation engine of `sms_survey.py`, together with proofs of the
spec's claims about it.

The relational store (SQLAlchemy models `User`, `Campaign`, `Response`,
`SurveyMessage`) is modelled as lists of records plus auto-increment
counters; dates and timestamps are modelled as integers (only their order
and arithmetic matter to the engine); the delivery gateway
(`MockSMSService.send_sms` / Twilio `messages.create`) is modelled as a
function from recipient and body to either a provider message id or an
error message, and `strftime` date rendering is modelled as a string-valued
parameter.  Python string primitives used by the webhook (`str.strip`,
`str.split`, `int(...)`) are embedded as executable functions.
-/

namespace SMS

/-- `User` model (sms_survey.py lines 35-44): id, name, unique phone
number, active flag.  `created_at` and the ORM relationship fields are
irrelevant to the engine and omitted. -/
structure User where
  id : Nat
  name : String
  phone_number : String
  is_active : Bool
deriving DecidableEq

/-- `Campaign` model (lines 46-57): id, name, description, inclusive start
and end date, active flag. -/
structure Campaign where
  id : Nat
  name : String
  description : String
  start_date : Int
  end_date : Int
  is_active : Bool
deriving DecidableEq

/-- `Campaign.is_running` (lines 59-61): active and start_date ≤ today ≤
end_date.  The source reads `date.today()` itself; here today is passed. -/
def Campaign.is_running (c : Campaign) (today : Int) : Bool :=
  c.is_active && (decide (c.start_date ≤ today) && decide (today ≤ c.end_date))

/-- `Response` model (lines 63-75).  The three ratings and the influence
text are nullable columns in the schema, but the only code path that
creates a `Response` (the SMS webhook) always sets all of them, so they
are total here. -/
structure Response where
  id : Nat
  user_id : Nat
  campaign_id : Nat
  survey_date : Int
  joy_rating : Int
  achievement_rating : Int
  meaningfulness_rating : Int
  influence_text : String
  submitted_at : Int
deriving DecidableEq

/-- `SurveyMessage` model (lines 77-84): the survey instance.  Note that
the schema declares plain columns only: there is no unique constraint on
(user_id, campaign_id, survey_date). -/
structure SurveyMessage where
  id : Nat
  user_id : Nat
  campaign_id : Nat
  survey_date : Int
  message_sid : Option String
  status : String
  sent_at : Option Int
deriving DecidableEq

/-- The relational store: one list per table plus auto-increment primary
key counters for the tables the engine inserts into. -/
structure Store where
  users : List User
  campaigns : List Campaign
  survey_messages : List SurveyMessage
  responses : List Response
  next_message_id : Nat
  next_response_id : Nat
deriving DecidableEq

/-- Database well-formedness: survey-message primary keys are pairwise
distinct and below the auto-increment counter. -/
def Store.wf (s : Store) : Prop :=
  s.survey_messages.Pairwise (fun a b => a.id ≠ b.id) ∧
  ∀ m ∈ s.survey_messages, m.id < s.next_message_id

/-- The delivery gateway: `send(to, body)` yields a provider message id or
an error detail (Twilio `messages.create` raising, resp. the mock service
returning its generated sid). -/
abbrev Gateway := String → String → Except String String

-- ### Python string primitives used by the engine

/-- Whitespace characters recognised by Python `str.strip()` (ASCII). -/
def isPyWs (c : Char) : Bool :=
  c == ' ' || c == '\t' || c == '\n' || c == '\r' || c == '\x0b' || c == '\x0c'

/-- Python `str.strip()`: drop leading and trailing whitespace. -/
def pyStrip (s : String) : String :=
  String.mk (((s.data.dropWhile isPyWs).reverse.dropWhile isPyWs).reverse)

/-- Helper for `pySplit`: accumulate the current field (reversed). -/
def splitCharAux (sep : Char) : List Char → List Char → List (List Char)
  | [], acc => [acc.reverse]
  | c :: rest, acc =>
    if c == sep then acc.reverse :: splitCharAux sep rest []
    else splitCharAux sep rest (c :: acc)

/-- Python `str.split(sep)` for a one-character separator: splits at every
occurrence, keeping empty fields (`"".split('/') == ['']`). -/
def pySplit (sep : Char) (s : String) : List String :=
  (splitCharAux sep s.data []).map String.mk

/-- Digit run of a Python integer literal: digits optionally separated by
single underscores (no leading, trailing or doubled underscore).  The
first argument records whether the previous character was an underscore,
the second is the accumulated value. -/
def pyDigitsAux : Bool → Nat → List Char → Option Nat
  | afterUnd, acc, [] => if afterUnd then none else some acc
  | afterUnd, acc, c :: rest =>
    if c.isDigit then pyDigitsAux false (10 * acc + (c.toNat - 48)) rest
    else if c = '_' then
      if afterUnd then none else pyDigitsAux true acc rest
    else none

/-- Nonempty digit run starting with a digit. -/
def pyDigits : List Char → Option Nat
  | [] => none
  | c :: rest => if c.isDigit then pyDigitsAux false (c.toNat - 48) rest else none

/-- Python `int(s)`: strip surrounding whitespace, optional single sign,
then a digit run; `none` models the `ValueError` raised otherwise.  The
webhook calls it on already-stripped parts, which `int` would re-strip, so
a single strip here is faithful. -/
def pyInt (s : String) : Option Int :=
  match (pyStrip s).data with
  | '+' :: rest => (pyDigits rest).map Int.ofNat
  | '-' :: rest => (pyDigits rest).map (fun n => -(n : Int))
  | t => (pyDigits t).map Int.ofNat

/-- Python falsiness of an optional form field: `not x` holds for a
missing field (`None`) and for the empty string. -/
def pyFalsyStr : Option String → Bool
  | none => true
  | some t => t == ""

-- ### Survey Dispatch Engine (SMSService.send_survey_message, lines 141-194)

/-- The idempotency lookup (lines 146-150): first `SurveyMessage` with the
given (user_id, campaign_id, survey_date). -/
def dispatch_lookup (u : User) (c : Campaign) (d : Int) (s : Store) :
    Option SurveyMessage :=
  s.survey_messages.find? fun m =>
    m.user_id == u.id && m.campaign_id == c.id && m.survey_date == d

/-- Creation and commit of the new pending instance (lines 156-163):
returns the inserted row and the store after the commit. -/
def dispatch_insert (u : User) (c : Campaign) (d : Int) (s : Store) :
    SurveyMessage × Store :=
  let sm : SurveyMessage :=
    { id := s.next_message_id, user_id := u.id, campaign_id := c.id,
      survey_date := d, message_sid := none, status := "pending",
      sent_at := none }
  (sm, { s with survey_messages := s.survey_messages ++ [sm],
                next_message_id := s.next_message_id + 1 })

/-- ORM row mutation followed by commit: replace the row with primary key
`mid` by `m'`. -/
def set_message (msgs : List SurveyMessage) (mid : Nat) (m' : SurveyMessage) :
    List SurveyMessage :=
  msgs.map fun m => if m.id == mid then m' else m

/-- `_generate_survey_message` (lines 196-215): deterministic body from the
user's name (generic salutation when empty) and the rendered date. -/
def generate_survey_message (dateFmt : Int → String) (u : User) (d : Int) :
    String :=
  let name := if u.name ≠ "" then u.name else "there"
  "Hi " ++ name ++ "! 🌟\n\nDaily Wellbeing Check-in for " ++ dateFmt d ++
  ":\n\nPlease rate your day yesterday (1-10):\n\n" ++
  "1️⃣ Joy: How much joy did you get?\n" ++
  "2️⃣ Achievement: How much achievement did you get?\n" ++
  "3️⃣ Meaningfulness: How much meaningfulness did you get?\n" ++
  "4️⃣ Influence: What influenced your ratings most?\n\n" ++
  "Reply with: joy/achievement/meaningfulness/influence\n" ++
  "Example: 8/7/9/Spent time with family\n\nThank you for participating! 💙"

/-- The not-found branch of `send_survey_message` (lines 155-194): insert
the pending row, invoke the gateway; on success commit provider id, sent
timestamp and status `sent` and return the row; on failure commit status
`failed` and re-raise (the error value carries the committed store). -/
def dispatch_after_miss (gw : Gateway) (dateFmt : Int → String) (now : Int)
    (u : User) (c : Campaign) (d : Int) (s : Store) :
    Except (String × Store) (SurveyMessage × Store) :=
  let sm := (dispatch_insert u c d s).1
  let s1 := (dispatch_insert u c d s).2
  match gw u.phone_number (generate_survey_message dateFmt u d) with
  | .ok sid =>
    let sm' := { sm with message_sid := some sid, sent_at := some now,
                         status := "sent" }
    .ok (sm', { s1 with survey_messages := set_message s1.survey_messages sm.id sm' })
  | .error e =>
    let sm' := { sm with status := "failed" }
    .error (e, { s1 with survey_messages := set_message s1.survey_messages sm.id sm' })

/-- `SMSService.send_survey_message` (lines 141-194).  `survey_date = none`
models the Python default argument, resolved to `today`.  `now` is the
`datetime.utcnow()` timestamp recorded on success. -/
def send_survey_message (gw : Gateway) (dateFmt : Int → String)
    (now today : Int) (u : User) (c : Campaign) (survey_date : Option Int)
    (s : Store) : Except (String × Store) (SurveyMessage × Store) :=
  let d := survey_date.getD today
  match dispatch_lookup u c d s with
  | some existing => .ok (existing, s)
  | none => dispatch_after_miss gw dateFmt now u c d s

/-- A dispatch call as the scheduler sees it (lines 257-262): the raised
exception is caught and logged, so only the resulting store survives. -/
def dispatch_caught (gw : Gateway) (dateFmt : Int → String)
    (now today : Int) (u : User) (c : Campaign) (survey_date : Option Int)
    (s : Store) : Store :=
  match send_survey_message gw dateFmt now today u c survey_date s with
  | .ok (_, s') => s'
  | .error (_, s') => s'

/-- Inner loop of `send_daily_surveys` for one active campaign (lines
255-262): if the campaign is running today, dispatch to every active user
(the user query runs when the campaign is processed). -/
def run_campaign (gw : Gateway) (dateFmt : Int → String) (now today : Int)
    (c : Campaign) (st : Store) : Store :=
  if c.is_running today then
    (st.users.filter (fun u => u.is_active)).foldl
      (fun st2 u => dispatch_caught gw dateFmt now today u c none st2) st
  else st

/-- `SchedulerService.send_daily_surveys` (lines 251-262): for every active
campaign that is currently running, dispatch to every active user;
per-user failures are caught and the batch continues. -/
def send_daily_surveys (gw : Gateway) (dateFmt : Int → String)
    (now today : Int) (s : Store) : Store :=
  (s.campaigns.filter (fun c => c.is_active)).foldl
    (fun st c => run_campaign gw dateFmt now today c st) s

/-- The deletion at the heart of `cleanup_old_data` (lines 267-272):
delete every `SurveyMessage` with survey_date strictly before the cutoff;
the second component is the number of deleted rows, `len(old_messages)`,
which the source writes to the log. -/
def purge_older_than (cutoff : Int) (s : Store) : Store × Nat :=
  let old := s.survey_messages.filter (fun m => decide (m.survey_date < cutoff))
  ({ s with survey_messages :=
      s.survey_messages.filter (fun m => !decide (m.survey_date < cutoff)) },
   old.length)

/-- `SchedulerService.cleanup_old_data` (lines 264-272): purge with a
90-day cutoff computed from today. -/
def cleanup_old_data (today : Int) (s : Store) : Store × Nat :=
  purge_older_than (today - 90) s

/-- Number of stored survey instances for one (user, campaign, date) key. -/
def countKey (s : Store) (uid cid : Nat) (d : Int) : Nat :=
  (s.survey_messages.filter (fun m =>
    m.user_id == uid && m.campaign_id == cid && m.survey_date == d)).length

/-- No two stored survey instances share (user_id, campaign_id,
survey_date). -/
def TripleUnique (s : Store) : Prop :=
  s.survey_messages.Pairwise (fun a b =>
    ¬(a.user_id = b.user_id ∧ a.campaign_id = b.campaign_id ∧
      a.survey_date = b.survey_date))

/-- An interleaved schedule of two overlapping dispatch calls for the same
key: both callers run the lookup of lines 146-150 against `s` (the caller
must check separately that it misses), then each runs the post-miss phase
of lines 155-194 in turn.  Because the `SurveyMessage` schema has no
uniqueness constraint on the key triple, the second insert also commits. -/
def overlap2 (gw : Gateway) (dateFmt : Int → String) (now : Int)
    (u : User) (c : Campaign) (d : Int) (s : Store) : Store :=
  let sA := match dispatch_after_miss gw dateFmt now u c d s with
            | .ok (_, s') => s' | .error (_, s') => s'
  match dispatch_after_miss gw dateFmt now u c d sA with
  | .ok (_, s') => s' | .error (_, s') => s'

-- ### Response Reconciliation Engine (webhook_sms, lines 3135-3210)

/-- Failure kinds of the webhook, one per distinct response of lines
3141-3210. -/
inductive WebhookError where
  | missingFields
  | userNotFound
  | invalidFormat
  | noActiveCampaign
  | serverError (detail : String)
deriving DecidableEq

/-- HTTP status the route attaches to each outcome. -/
def httpStatus : WebhookError → Nat
  | .missingFields => 400
  | .userNotFound => 404
  | .invalidFormat => 400
  | .noActiveCampaign => 404
  | .serverError _ => 500

/-- JSON error message the route attaches to each outcome. -/
def errMessage : WebhookError → String
  | .missingFields => "Missing required fields"
  | .userNotFound => "User not found"
  | .invalidFormat => "Invalid response format"
  | .noActiveCampaign => "No active campaign"
  | .serverError detail => detail

/-- The feedback URL of line 3178: BASE_URL, then `/feedback/`, then the
user id and the campaign id. -/
def feedback_url (base : String) (uid cid : Nat) : String :=
  base ++ "/feedback/" ++ toString uid ++ "/" ++ toString cid

/-- The confirmation SMS body of line 3182. -/
def confirmation_message (url : String) : String :=
  "Thank you for your response! 🌟 View your personalized wellbeing insights: " ++ url

/-- `webhook_sms` (lines 3135-3210).  `from_number` and `rawBody` model
`request.form.get('From')` and `request.form.get('Body', '')`; `today` and
`now` model `date.today()` and `datetime.utcnow()`; `base` models the
BASE_URL setting.  The result pairs the store after the call with either
the created response and feedback URL or the error returned.  A
confirmation-send failure surfaces as `serverError` (the route's catch-all
500) with the response row already committed. -/
def webhook_sms (gw : Gateway) (base : String) (today now : Int)
    (from_number : Option String) (rawBody : Option String) (s : Store) :
    Store × Except WebhookError (Response × String) :=
  let body := pyStrip (rawBody.getD "")
  if pyFalsyStr from_number || body == "" then
    (s, .error .missingFields)
  else
    match s.users.find? (fun v => v.phone_number == from_number.getD "") with
    | none => (s, .error .userNotFound)
    | some user =>
      match pySplit '/' body with
      | p0 :: p1 :: p2 :: p3 :: _ =>
        match pyInt p0, pyInt p1, pyInt p2 with
        | some joy, some achievement, some meaningfulness =>
          let influence := pyStrip p3
          match s.campaigns.find? (fun k => k.is_active) with
          | none => (s, .error .noActiveCampaign)
          | some campaign =>
            let resp : Response :=
              { id := s.next_response_id, user_id := user.id,
                campaign_id := campaign.id, survey_date := today,
                joy_rating := joy, achievement_rating := achievement,
                meaningfulness_rating := meaningfulness,
                influence_text := influence, submitted_at := now }
            let s1 := { s with responses := s.responses ++ [resp],
                               next_response_id := s.next_response_id + 1 }
            let url := feedback_url base user.id campaign.id
            match gw user.phone_number (confirmation_message url) with
            | .ok _ => (s1, .ok (resp, url))
            | .error e => (s1, .error (.serverError e))
        | _, _, _ => (s, .error .invalidFormat)
      | _ => (s, .error .invalidFormat)

-- ### Concrete data used by witnesses and counterexamples

/-- A demo participant. -/
def u1 : User :=
  { id := 1, name := "Ann", phone_number := "+15551234567", is_active := true }

/-- A demo active campaign whose window contains the demo dates. -/
def c1 : Campaign :=
  { id := 1, name := "Camp", description := "", start_date := 0,
    end_date := 10, is_active := true }

/-- A store with one participant, one active campaign and no instances. -/
def s0 : Store :=
  { users := [u1], campaigns := [c1], survey_messages := [], responses := [],
    next_message_id := 1, next_response_id := 1 }

/-- A survey instance already in the `sent` state. -/
def mSent : SurveyMessage :=
  { id := 1, user_id := 1, campaign_id := 1, survey_date := 2,
    message_sid := some "SM1", status := "sent", sent_at := some 5 }

/-- A store holding `mSent`. -/
def sW : Store :=
  { users := [u1], campaigns := [c1], survey_messages := [mSent],
    responses := [], next_message_id := 2, next_response_id := 1 }

/-- A store whose only campaign is inactive. -/
def sNoCamp : Store :=
  { users := [u1], campaigns := [{ c1 with is_active := false }],
    survey_messages := [], responses := [],
    next_message_id := 1, next_response_id := 1 }

/-- A gateway that always succeeds with a fixed provider id. -/
def gwOk : Gateway := fun _ _ => .ok "SM1"

/-- A gateway that always fails. -/
def gwFail : Gateway := fun _ _ => .error "boom"

/-- A fixed date renderer standing in for `strftime`. -/
def fmt0 : Int → String := fun _ => "January 01, 2024"

-- ### Derived result shapes of the dispatch miss path

/-- The row as committed by the success branch (lines 184-187): provider
id, sent timestamp, status `sent`, on top of the freshly inserted row. -/
def sent_row (now : Int) (u : User) (c : Campaign) (d : Int) (s : Store)
    (sid : String) : SurveyMessage :=
  { id := s.next_message_id, user_id := u.id, campaign_id := c.id,
    survey_date := d, message_sid := some sid, status := "sent",
    sent_at := some now }

/-- The row as committed by the failure branch (lines 191-193). -/
def failed_row (u : User) (c : Campaign) (d : Int) (s : Store) :
    SurveyMessage :=
  { id := s.next_message_id, user_id := u.id, campaign_id := c.id,
    survey_date := d, message_sid := none, status := "failed",
    sent_at := none }

/-- The store after the miss path commits `row` as its one new row. -/
def store_after (s : Store) (row : SurveyMessage) : Store :=
  { s with survey_messages := s.survey_messages ++ [row],
           next_message_id := s.next_message_id + 1 }

/-- Frame relation between a store and one produced from it by dispatch
calls: the other tables are untouched and survey messages are only
appended, each appended row carrying a fresh primary key. -/
def StoreExtends (s s' : Store) : Prop :=
  s'.users = s.users ∧ s'.campaigns = s.campaigns ∧
  s'.responses = s.responses ∧ s'.next_response_id = s.next_response_id ∧
  s.next_message_id ≤ s'.next_message_id ∧
  ∃ tail, s'.survey_messages = s.survey_messages ++ tail ∧
    ∀ t ∈ tail, s.next_message_id ≤ t.id

-- ### Helper lemmas

theorem set_message_of_not_mem (msgs : List SurveyMessage) (mid : Nat)
    (m' : SurveyMessage) (h : ∀ m ∈ msgs, m.id ≠ mid) :
    set_message msgs mid m' = msgs := by
  induction msgs with
  | nil => rfl
  | cons a t ih =>
    have ha : (a.id == mid) = false := by
      simp [h a (List.mem_cons_self a t)]
    simp only [set_message, List.map_cons] at *
    rw [ha]
    simp only [Bool.false_eq_true, if_false]
    rw [ih (fun m hm => h m (List.mem_cons_of_mem a hm))]

theorem mem_id_unique {l : List SurveyMessage}
    (hp : l.Pairwise (fun a b => a.id ≠ b.id)) :
    ∀ m ∈ l, ∀ m' ∈ l, m'.id = m.id → m' = m := by
  induction l with
  | nil => simp
  | cons a t ih =>
    obtain ⟨ha, ht⟩ := List.pairwise_cons.mp hp
    intro m hm m' hm' hid
    rcases List.mem_cons.mp hm with h1 | h1
    · rcases List.mem_cons.mp hm' with h2 | h2
      · rw [h1, h2]
      · exact absurd (h1 ▸ hid.symm) (ha m' h2)
    · rcases List.mem_cons.mp hm' with h2 | h2
      · exact absurd (h2 ▸ hid) (ha m h1)
      · exact ih ht m h1 m' h2 hid

theorem key_pred_false_of_lookup_none {u : User} {c : Campaign} {d : Int}
    {s : Store} (hnone : dispatch_lookup u c d s = none) :
    ∀ m ∈ s.survey_messages,
      ¬(m.user_id = u.id ∧ m.campaign_id = c.id ∧ m.survey_date = d) := by
  intro m hm
  have := List.find?_eq_none.mp hnone m hm
  simpa [Bool.and_eq_true, beq_iff_eq, and_assoc] using this

theorem set_message_append_fresh (msgs : List SurveyMessage) (mid : Nat)
    (x y : SurveyMessage) (hfresh : ∀ m ∈ msgs, m.id ≠ mid) (hx : x.id = mid) :
    set_message (msgs ++ [x]) mid y = msgs ++ [y] := by
  have h1 := set_message_of_not_mem msgs mid y hfresh
  simp only [set_message, List.map_append, List.map_cons, List.map_nil] at *
  rw [h1, hx]
  simp

theorem after_miss_ok {gw : Gateway} {dateFmt : Int → String} {now : Int}
    {u : User} {c : Campaign} {d : Int} {s : Store} {sid : String}
    (hwf : s.wf)
    (hgw : gw u.phone_number (generate_survey_message dateFmt u d) = .ok sid) :
    dispatch_after_miss gw dateFmt now u c d s =
      .ok (sent_row now u c d s sid, store_after s (sent_row now u c d s sid)) := by
  have hfresh : ∀ m ∈ s.survey_messages, m.id ≠ s.next_message_id :=
    fun m hm => Nat.ne_of_lt (hwf.2 m hm)
  obtain ⟨us, cs, ms, rs, nm, nr⟩ := s
  have h1 := set_message_append_fresh ms nm
    ({ id := nm, user_id := u.id, campaign_id := c.id, survey_date := d,
       message_sid := none, status := "pending", sent_at := none })
    ({ id := nm, user_id := u.id, campaign_id := c.id, survey_date := d,
       message_sid := some sid, status := "sent", sent_at := some now })
    hfresh rfl
  simp only [dispatch_after_miss, dispatch_insert, hgw, sent_row, store_after]
  simp_all

theorem after_miss_err {gw : Gateway} {dateFmt : Int → String} {now : Int}
    {u : User} {c : Campaign} {d : Int} {s : Store} {e : String}
    (hwf : s.wf)
    (hgw : gw u.phone_number (generate_survey_message dateFmt u d) = .error e) :
    dispatch_after_miss gw dateFmt now u c d s =
      .error (e, store_after s (failed_row u c d s)) := by
  have hfresh : ∀ m ∈ s.survey_messages, m.id ≠ s.next_message_id :=
    fun m hm => Nat.ne_of_lt (hwf.2 m hm)
  obtain ⟨us, cs, ms, rs, nm, nr⟩ := s
  have h1 := set_message_append_fresh ms nm
    ({ id := nm, user_id := u.id, campaign_id := c.id, survey_date := d,
       message_sid := none, status := "pending", sent_at := none })
    ({ id := nm, user_id := u.id, campaign_id := c.id, survey_date := d,
       message_sid := none, status := "failed", sent_at := none })
    hfresh rfl
  simp only [dispatch_after_miss, dispatch_insert, hgw, failed_row, store_after]
  simp_all

theorem lookup_store_after {u : User} {c : Campaign} {d : Int} {s : Store}
    (row : SurveyMessage) (hnone : dispatch_lookup u c d s = none)
    (h1 : row.user_id = u.id) (h2 : row.campaign_id = c.id)
    (h3 : row.survey_date = d) :
    dispatch_lookup u c d (store_after s row) = some row ∧
    countKey (store_after s row) u.id c.id d = 1 := by
  have hall := List.find?_eq_none.mp hnone
  constructor
  · simp only [dispatch_lookup, store_after, List.find?_append]
    rw [show s.survey_messages.find? (fun m =>
        m.user_id == u.id && m.campaign_id == c.id && m.survey_date == d) = none
      from hnone]
    simp [h1, h2, h3]
  · simp only [countKey, store_after, List.filter_append]
    rw [List.filter_eq_nil_iff.mpr hall]
    simp [h1, h2, h3]

theorem wf_store_after {s : Store} (row : SurveyMessage) (hwf : s.wf)
    (hid : row.id = s.next_message_id) : (store_after s row).wf := by
  constructor
  · simp only [store_after]
    rw [List.pairwise_append]
    refine ⟨hwf.1, List.pairwise_singleton _ _, ?_⟩
    intro a ha b hb
    simp only [List.mem_singleton] at hb
    rw [hb, hid]
    exact Nat.ne_of_lt (hwf.2 a ha)
  · intro m hm
    simp only [store_after, List.mem_append, List.mem_singleton] at hm
    rcases hm with hm | hm
    · exact Nat.lt_succ_of_lt (hwf.2 m hm)
    · rw [hm, hid]; exact Nat.lt_succ_self _

-- ### C1: dispatch is idempotent per key

/-- C1: Dispatch is idempotent per key.  If a SurveyInstance already
exists for (participant.id, campaign.id, date), `send_survey_message`
returns it unchanged whatever its status — the store is not modified, no
row is inserted, and the result does not depend on the gateway (no send is
performed).  And after a first successful dispatch for a key with no
instance, the key holds exactly one stored instance and a second dispatch
call returns the first call's instance with the store unchanged. -/
theorem dispatch_idempotent_per_key (u : User) (c : Campaign) (d : Int)
    (s : Store) (hwf : s.wf) :
    (∀ (gw : Gateway) (dateFmt : Int → String) (now today : Int)
        (m : SurveyMessage), dispatch_lookup u c d s = some m →
        send_survey_message gw dateFmt now today u c (some d) s = .ok (m, s)) ∧
    (∀ (gw gw' : Gateway) (dateFmt dateFmt' : Int → String)
        (now today now' today' : Int) (m1 : SurveyMessage) (s1 : Store),
        dispatch_lookup u c d s = none →
        send_survey_message gw dateFmt now today u c (some d) s = .ok (m1, s1) →
        send_survey_message gw' dateFmt' now' today' u c (some d) s1 = .ok (m1, s1) ∧
        countKey s1 u.id c.id d = 1) := by
  constructor
  · intro gw dateFmt now today m hm
    simp [send_survey_message, hm]
  · intro gw gw' dateFmt dateFmt' now today now' today' m1 s1 hnone hcall
    simp only [send_survey_message, Option.getD_some, hnone] at hcall
    cases hgw : gw u.phone_number (generate_survey_message dateFmt u d) with
    | error e =>
      rw [after_miss_err hwf hgw] at hcall
      exact absurd hcall (by simp)
    | ok sid =>
      rw [after_miss_ok hwf hgw] at hcall
      have hm1 : sent_row now u c d s sid = m1 := by
        injection hcall with h; exact congrArg Prod.fst h
      have hs1 : store_after s (sent_row now u c d s sid) = s1 := by
        injection hcall with h; exact congrArg Prod.snd h
      subst hm1
      subst hs1
      have hl := lookup_store_after (sent_row now u c d s sid) hnone rfl rfl rfl
      refine ⟨?_, hl.2⟩
      simp [send_survey_message, hl.1]

/-- C1 witness: in `sW` the key (1, 1, 2) already has the instance
`mSent`; dispatch returns it with the store untouched. -/
theorem dispatch_idempotent_per_key_witness :
    send_survey_message gwOk fmt0 5 3 u1 c1 (some 2) sW = .ok (mSent, sW) :=
  (dispatch_idempotent_per_key u1 c1 2 sW
    ⟨List.pairwise_singleton _ _, by decide⟩).1 gwOk fmt0 5 3 mSent (by decide)

-- ### C5: pending before the gateway, then sent or failed

/-- C5: When no instance exists for the key, dispatch first commits a new
instance with status `pending` (the committed intermediate store of lines
156-163, before any gateway call); if the gateway send succeeds the stored
instance ends `sent` with the provider message id and the sent timestamp,
and if the gateway raises, dispatch re-raises the failure while leaving
the instance stored with status `failed` — the key is never left without a
stored record. -/
theorem dispatch_durable_pending_then_terminal (gw : Gateway)
    (dateFmt : Int → String) (now today : Int) (u : User) (c : Campaign)
    (d : Int) (s : Store) (hwf : s.wf)
    (hnone : dispatch_lookup u c d s = none) :
    ((dispatch_insert u c d s).1.status = "pending" ∧
     (dispatch_insert u c d s).1 ∈ (dispatch_insert u c d s).2.survey_messages ∧
     (dispatch_insert u c d s).1.user_id = u.id ∧
     (dispatch_insert u c d s).1.campaign_id = c.id ∧
     (dispatch_insert u c d s).1.survey_date = d) ∧
    (∀ sid, gw u.phone_number (generate_survey_message dateFmt u d) = .ok sid →
      send_survey_message gw dateFmt now today u c (some d) s =
        .ok (sent_row now u c d s sid, store_after s (sent_row now u c d s sid)) ∧
      (sent_row now u c d s sid).status = "sent" ∧
      (sent_row now u c d s sid).message_sid = some sid ∧
      (sent_row now u c d s sid).sent_at = some now ∧
      dispatch_lookup u c d (store_after s (sent_row now u c d s sid)) =
        some (sent_row now u c d s sid)) ∧
    (∀ e, gw u.phone_number (generate_survey_message dateFmt u d) = .error e →
      send_survey_message gw dateFmt now today u c (some d) s =
        .error (e, store_after s (failed_row u c d s)) ∧
      (failed_row u c d s).status = "failed" ∧
      dispatch_lookup u c d (store_after s (failed_row u c d s)) =
        some (failed_row u c d s)) := by
  refine ⟨⟨rfl, by simp [dispatch_insert], rfl, rfl, rfl⟩, ?_, ?_⟩
  · intro sid hgw
    refine ⟨?_, rfl, rfl, rfl,
      (lookup_store_after (sent_row now u c d s sid) hnone rfl rfl rfl).1⟩
    simp only [send_survey_message, Option.getD_some, hnone]
    exact after_miss_ok hwf hgw
  · intro e hgw
    refine ⟨?_, rfl,
      (lookup_store_after (failed_row u c d s) hnone rfl rfl rfl).1⟩
    simp only [send_survey_message, Option.getD_some, hnone]
    exact after_miss_err hwf hgw

/-- C5 witness: on the empty store `s0` the freshly inserted intermediate
row is `pending`, and with a failing gateway the call raises while a
`failed` row stays stored for the key. -/
theorem dispatch_durable_pending_then_terminal_witness :
    (dispatch_insert u1 c1 2 s0).1.status = "pending" ∧
    send_survey_message gwFail fmt0 5 3 u1 c1 (some 2) s0 =
      .error ("boom", store_after s0 (failed_row u1 c1 2 s0)) ∧
    send_survey_message gwOk fmt0 5 3 u1 c1 (some 2) s0 =
      .ok (sent_row 5 u1 c1 2 s0 "SM1", store_after s0 (sent_row 5 u1 c1 2 s0 "SM1")) :=
  ⟨(dispatch_durable_pending_then_terminal gwFail fmt0 5 3 u1 c1 2 s0
      ⟨List.Pairwise.nil, by decide⟩ (by decide)).1.1,
   ((dispatch_durable_pending_then_terminal gwFail fmt0 5 3 u1 c1 2 s0
      ⟨List.Pairwise.nil, by decide⟩ (by decide)).2.2 "boom" rfl).1,
   ((dispatch_durable_pending_then_terminal gwOk fmt0 5 3 u1 c1 2 s0
      ⟨List.Pairwise.nil, by decide⟩ (by decide)).2.1 "SM1" rfl).1⟩

-- ### C2: the uniqueness of the key triple under concurrency

/-- C2 counterexample: the `SurveyMessage` schema declares no uniqueness
constraint on (user_id, campaign_id, survey_date) and dispatch has no
constraint-violation handling, so an interleaving of two overlapping
dispatch calls for the same key — both run the lines 146-150 lookup
against `s0` and observe "not found" (first conjunct), then each runs the
lines 155-194 insert-and-send phase — commits two instances for the key:
the claimed "exactly one instance is inserted" fails. -/
theorem concurrent_dispatch_inserts_duplicates :
    dispatch_lookup u1 c1 2 s0 = none ∧
    countKey (overlap2 gwOk fmt0 5 u1 c1 2 s0) 1 1 2 = 2 := by
  constructor
  · rfl
  · decide

/-- C2 (amended): dispatch never inserts when an instance for the key
already exists, so dispatch calls that do not overlap preserve the
invariant that no two stored SurveyInstances share the key triple; the
concurrent half of the claim fails (see the counterexample) because the
store declares no uniqueness constraint on the triple and no
constraint-violation is caught. -/
theorem sequential_dispatch_preserves_triple_unique (gw : Gateway)
    (dateFmt : Int → String) (now today : Int) (u : User) (c : Campaign)
    (sd : Option Int) (s : Store) (hwf : s.wf) (huniq : TripleUnique s) :
    TripleUnique (dispatch_caught gw dateFmt now today u c sd s) := by
  simp only [dispatch_caught, send_survey_message]
  cases hlook : dispatch_lookup u c (sd.getD today) s with
  | some m => simpa [TripleUnique] using huniq
  | none =>
    have hall := key_pred_false_of_lookup_none hlook
    cases hgw : gw u.phone_number (generate_survey_message dateFmt u (sd.getD today)) with
    | ok sid =>
      rw [after_miss_ok hwf hgw]
      simp only [TripleUnique, store_after]
      rw [List.pairwise_append]
      refine ⟨huniq, List.pairwise_singleton _ _, ?_⟩
      intro a ha b hb
      simp only [List.mem_singleton] at hb
      rw [hb]
      exact hall a ha
    | error e =>
      rw [after_miss_err hwf hgw]
      simp only [TripleUnique, store_after]
      rw [List.pairwise_append]
      refine ⟨huniq, List.pairwise_singleton _ _, ?_⟩
      intro a ha b hb
      simp only [List.mem_singleton] at hb
      rw [hb]
      exact hall a ha

/-- C2 witness for the amended statement: a non-overlapping dispatch on
the empty store keeps the key triple unique. -/
theorem sequential_dispatch_preserves_triple_unique_witness :
    TripleUnique (dispatch_caught gwOk fmt0 5 3 u1 c1 (some 2) s0) :=
  sequential_dispatch_preserves_triple_unique gwOk fmt0 5 3 u1 c1 (some 2) s0
    ⟨List.Pairwise.nil, by decide⟩ List.Pairwise.nil

-- ### C6: purge deletes exactly the instances before the cutoff

theorem length_filter_split {α : Type} (p : α → Bool) (l : List α) :
    l.length = (l.filter (fun a => !p a)).length + (l.filter p).length := by
  induction l with
  | nil => rfl
  | cons a t ih =>
    by_cases h : p a = true
    · simp [List.filter_cons, h]
      omega
    · simp [List.filter_cons, h]
      omega

/-- C6: `purge_older_than(cutoff)` deletes all and only the
SurveyInstances with survey_date strictly before the cutoff (membership in
the resulting table is equivalent to prior membership with survey_date ≥
cutoff), leaves users, campaigns and responses untouched, yields as its
logged count exactly the number of deleted rows, and is idempotent: an
immediate second run deletes zero rows and changes nothing. -/
theorem purge_older_than_exact (cutoff : Int) (s : Store) :
    (∀ m : SurveyMessage,
      m ∈ (purge_older_than cutoff s).1.survey_messages ↔
        (m ∈ s.survey_messages ∧ cutoff ≤ m.survey_date)) ∧
    (purge_older_than cutoff s).1.users = s.users ∧
    (purge_older_than cutoff s).1.campaigns = s.campaigns ∧
    (purge_older_than cutoff s).1.responses = s.responses ∧
    s.survey_messages.length =
      (purge_older_than cutoff s).1.survey_messages.length +
        (purge_older_than cutoff s).2 ∧
    purge_older_than cutoff (purge_older_than cutoff s).1 =
      ((purge_older_than cutoff s).1, 0) := by
  refine ⟨?_, rfl, rfl, rfl, ?_, ?_⟩
  · intro m
    simp only [purge_older_than, List.mem_filter, Bool.not_eq_eq_eq_not,
      Bool.not_true, decide_eq_false_iff_not, not_lt]
  · exact length_filter_split _ _
  · simp only [purge_older_than, List.filter_filter]
    have h1 : List.filter (fun a => !decide (a.survey_date < cutoff) &&
        !decide (a.survey_date < cutoff)) s.survey_messages =
        List.filter (fun m => !decide (m.survey_date < cutoff)) s.survey_messages :=
      List.filter_congr (fun a _ => by rw [Bool.and_self])
    have h2 : List.filter (fun a => decide (a.survey_date < cutoff) &&
        !decide (a.survey_date < cutoff)) s.survey_messages = [] :=
      List.filter_eq_nil_iff.mpr (fun a _ => by simp [Bool.and_not_self])
    rw [h1, h2]
    rfl

-- ### Frame lemmas: dispatch only appends fresh rows

theorem store_extends_refl (s : Store) : StoreExtends s s :=
  ⟨rfl, rfl, rfl, rfl, Nat.le_refl _, [], by simp, by simp⟩

theorem store_extends_trans {s1 s2 s3 : Store} (h12 : StoreExtends s1 s2)
    (h23 : StoreExtends s2 s3) : StoreExtends s1 s3 := by
  obtain ⟨hu12, hc12, hr12, hn12, hm12, t12, ht12, hb12⟩ := h12
  obtain ⟨hu23, hc23, hr23, hn23, hm23, t23, ht23, hb23⟩ := h23
  refine ⟨hu23.trans hu12, hc23.trans hc12, hr23.trans hr12, hn23.trans hn12,
    Nat.le_trans hm12 hm23, t12 ++ t23, ?_, ?_⟩
  · rw [ht23, ht12, List.append_assoc]
  · intro t ht
    rcases List.mem_append.mp ht with h | h
    · exact hb12 t h
    · exact Nat.le_trans hm12 (hb23 t h)

theorem dispatch_caught_extends (gw : Gateway) (dateFmt : Int → String)
    (now today : Int) (u : User) (c : Campaign) (sd : Option Int)
    (s : Store) (hwf : s.wf) :
    StoreExtends s (dispatch_caught gw dateFmt now today u c sd s) ∧
    (dispatch_caught gw dateFmt now today u c sd s).wf := by
  simp only [dispatch_caught, send_survey_message]
  cases hlook : dispatch_lookup u c (sd.getD today) s with
  | some m => exact ⟨store_extends_refl s, hwf⟩
  | none =>
    cases hgw : gw u.phone_number (generate_survey_message dateFmt u (sd.getD today)) with
    | ok sid =>
      rw [after_miss_ok hwf hgw]
      exact ⟨⟨rfl, rfl, rfl, rfl, Nat.le_succ _, [sent_row now u c (sd.getD today) s sid],
          rfl, by intro t ht; simp only [List.mem_singleton] at ht; rw [ht]; exact Nat.le_refl _⟩,
        wf_store_after _ hwf rfl⟩
    | error e =>
      rw [after_miss_err hwf hgw]
      exact ⟨⟨rfl, rfl, rfl, rfl, Nat.le_succ _, [failed_row u c (sd.getD today) s],
          rfl, by intro t ht; simp only [List.mem_singleton] at ht; rw [ht]; exact Nat.le_refl _⟩,
        wf_store_after _ hwf rfl⟩

theorem foldl_extends {α : Type} (f : Store → α → Store)
    (hstep : ∀ st a, st.wf → StoreExtends st (f st a) ∧ (f st a).wf) :
    ∀ (l : List α) (st : Store), st.wf →
      StoreExtends st (l.foldl f st) ∧ (l.foldl f st).wf := by
  intro l
  induction l with
  | nil => intro st h; exact ⟨store_extends_refl st, h⟩
  | cons a t ih =>
    intro st h
    obtain ⟨h1, h2⟩ := hstep st a h
    obtain ⟨h3, h4⟩ := ih (f st a) h2
    exact ⟨store_extends_trans h1 h3, h4⟩

theorem run_campaign_extends (gw : Gateway) (dateFmt : Int → String)
    (now today : Int) (c : Campaign) (s : Store) (hwf : s.wf) :
    StoreExtends s (run_campaign gw dateFmt now today c s) ∧
    (run_campaign gw dateFmt now today c s).wf := by
  simp only [run_campaign]
  by_cases h : c.is_running today = true
  · rw [if_pos h]
    exact foldl_extends _
      (fun st u hst => dispatch_caught_extends gw dateFmt now today u c none st hst)
      _ s hwf
  · rw [if_neg h]
    exact ⟨store_extends_refl s, hwf⟩

theorem send_daily_surveys_extends (gw : Gateway) (dateFmt : Int → String)
    (now today : Int) (s : Store) (hwf : s.wf) :
    StoreExtends s (send_daily_surveys gw dateFmt now today s) ∧
    (send_daily_surveys gw dateFmt now today s).wf := by
  simp only [send_daily_surveys]
  exact foldl_extends _
    (fun st c hst => run_campaign_extends gw dateFmt now today c st hst)
    _ s hwf

-- ### C7: a sent or failed instance is never modified again

/-- C7: SurveyInstance status is monotonic.  An instance in a terminal
state (`sent` or `failed`) is never changed by any engine operation: after
a dispatch for any key (including a re-dispatch of the instance's own
key), after a whole daily batch run, and after a purge, every stored row
carrying that instance's primary key is the unchanged instance itself.
Together with `dispatch_durable_pending_then_terminal` (creation as
`pending`, single transition to `sent` or `failed`), this is the claimed
lifecycle. -/
theorem terminal_status_never_changes (s : Store) (hwf : s.wf)
    (m : SurveyMessage) (hm : m ∈ s.survey_messages)
    (_hterm : m.status = "sent" ∨ m.status = "failed") :
    (∀ (gw : Gateway) (dateFmt : Int → String) (now today : Int)
        (u : User) (c : Campaign) (sd : Option Int),
      ∀ m' ∈ (dispatch_caught gw dateFmt now today u c sd s).survey_messages,
        m'.id = m.id → m' = m) ∧
    (∀ (gw : Gateway) (dateFmt : Int → String) (now today : Int),
      ∀ m' ∈ (send_daily_surveys gw dateFmt now today s).survey_messages,
        m'.id = m.id → m' = m) ∧
    (∀ cutoff : Int,
      ∀ m' ∈ (purge_older_than cutoff s).1.survey_messages,
        m'.id = m.id → m' = m) := by
  refine ⟨?_, ?_, ?_⟩
  · intro gw dateFmt now today u c sd m' hm' hid
    obtain ⟨hext, hwf'⟩ := dispatch_caught_extends gw dateFmt now today u c sd s hwf
    obtain ⟨_, _, _, _, _, tail, htail, _⟩ := hext
    have hmem : m ∈ (dispatch_caught gw dateFmt now today u c sd s).survey_messages := by
      rw [htail]; exact List.mem_append_left _ hm
    exact mem_id_unique hwf'.1 m hmem m' hm' hid
  · intro gw dateFmt now today m' hm' hid
    obtain ⟨hext, hwf'⟩ := send_daily_surveys_extends gw dateFmt now today s hwf
    obtain ⟨_, _, _, _, _, tail, htail, _⟩ := hext
    have hmem : m ∈ (send_daily_surveys gw dateFmt now today s).survey_messages := by
      rw [htail]; exact List.mem_append_left _ hm
    exact mem_id_unique hwf'.1 m hmem m' hm' hid
  · intro cutoff m' hm' hid
    have hm'' : m' ∈ s.survey_messages :=
      List.mem_of_mem_filter hm'
    exact mem_id_unique hwf.1 m hm m' hm'' hid

/-- C7 witness: in `sW` the sent instance `mSent` survives a re-dispatch
of its own key unchanged. -/
theorem terminal_status_never_changes_witness : mSent.status = "sent" ∧ mSent = mSent :=
  ⟨rfl,
   (terminal_status_never_changes sW ⟨List.pairwise_singleton _ _, by decide⟩
      mSent (by decide) (Or.inl rfl)).1 gwOk fmt0 5 3 u1 c1 (some 2) mSent
      (by decide) rfl⟩

-- ### C8: dispatch enforces no eligibility precondition

theorem foldl_fix {α : Type} (f : Store → α → Store) (s : Store)
    (l : List α) (h : ∀ a ∈ l, f s a = s) : l.foldl f s = s := by
  induction l with
  | nil => rfl
  | cons a t ih =>
    rw [List.foldl_cons, h a (List.mem_cons_self a t)]
    exact ih (fun b hb => h b (List.mem_cons_of_mem a hb))

/-- C8: `send_survey_message` checks no eligibility: its behaviour is
unchanged under any participant active flag, campaign active flag, or
campaign start/end window — an inactive participant or campaign, or a
date outside the window, is dispatched exactly like an eligible pair.
The active/running filtering lives only in the daily batch caller: a
batch over a store whose campaigns are all inactive, or whose users are
all inactive, dispatches nothing. -/
theorem dispatch_no_eligibility_check :
    (∀ (gw : Gateway) (dateFmt : Int → String) (now today : Int)
        (sd : Option Int) (s : Store) (u : User) (c : Campaign)
        (b bc : Bool) (ds de : Int),
      send_survey_message gw dateFmt now today { u with is_active := b }
          { c with is_active := bc, start_date := ds, end_date := de } sd s =
        send_survey_message gw dateFmt now today u c sd s) ∧
    (∀ (gw : Gateway) (dateFmt : Int → String) (now today : Int) (s : Store),
      (∀ c ∈ s.campaigns, c.is_active = false) →
      send_daily_surveys gw dateFmt now today s = s) ∧
    (∀ (gw : Gateway) (dateFmt : Int → String) (now today : Int) (s : Store),
      (∀ u ∈ s.users, u.is_active = false) →
      send_daily_surveys gw dateFmt now today s = s) := by
  refine ⟨?_, ?_, ?_⟩
  · intro gw dateFmt now today sd s u c b bc ds de
    cases u
    cases c
    rfl
  · intro gw dateFmt now today s h
    simp only [send_daily_surveys]
    rw [List.filter_eq_nil_iff.mpr (fun c hc => by simp [h c hc])]
    rfl
  · intro gw dateFmt now today s h
    simp only [send_daily_surveys]
    apply foldl_fix
    intro c _
    simp only [run_campaign]
    by_cases hr : c.is_running today = true
    · rw [if_pos hr]
      rw [List.filter_eq_nil_iff.mpr (fun u hu => by simp [h u hu])]
      rfl
    · rw [if_neg hr]

/-- C8 witness: deactivating the demo participant and campaign and moving
the window does not change the dispatch result on `s0`, and a batch over
the all-inactive-campaign store `sNoCamp` leaves it untouched. -/
theorem dispatch_no_eligibility_check_witness :
    send_survey_message gwOk fmt0 5 3 { u1 with is_active := false }
        { c1 with is_active := false, start_date := 7, end_date := 8 }
        (some 2) s0 =
      send_survey_message gwOk fmt0 5 3 u1 c1 (some 2) s0 ∧
    send_daily_surveys gwOk fmt0 5 3 sNoCamp = sNoCamp :=
  ⟨dispatch_no_eligibility_check.1 gwOk fmt0 5 3 (some 2) s0 u1 c1 false false 7 8,
   dispatch_no_eligibility_check.2.1 gwOk fmt0 5 3 sNoCamp (by decide)⟩

-- ### C9: the missing-fields check precedes sender resolution

/-- C9: A webhook call with a missing sender address, an empty sender
address, a missing body, or a body that is empty after stripping is
rejected as `Missing required fields` (client error 400) for every store —
in particular before and independently of any participant lookup, so an
unknown sender with a whitespace-only body gets this client error and not
the `User not found` not-found response, and nothing is written. -/
theorem missing_fields_checked_first (gw : Gateway) (base : String)
    (today now : Int) :
    (∀ (s : Store) (rb : Option String),
      webhook_sms gw base today now none rb s = (s, .error .missingFields)) ∧
    (∀ (s : Store) (rb : Option String),
      webhook_sms gw base today now (some "") rb s = (s, .error .missingFields)) ∧
    (∀ (s : Store) (ph : String),
      webhook_sms gw base today now (some ph) none s = (s, .error .missingFields)) ∧
    (∀ (s : Store) (ph b : String), pyStrip b = "" →
      webhook_sms gw base today now (some ph) (some b) s = (s, .error .missingFields)) ∧
    (httpStatus .missingFields = 400 ∧ httpStatus .userNotFound = 404 ∧
      errMessage .missingFields ≠ errMessage .userNotFound) := by
  refine ⟨?_, ?_, ?_, ?_, rfl, rfl, by decide⟩
  · intro s rb
    simp [webhook_sms, pyFalsyStr]
  · intro s rb
    simp [webhook_sms, pyFalsyStr]
  · intro s ph
    simp [webhook_sms, pyFalsyStr, pyStrip]
  · intro s ph b hb
    simp [webhook_sms, pyFalsyStr, hb]

/-- C9 witness: an unknown sender posting a whitespace-only body on `s0`
receives the missing-fields client error, not the unknown-sender
not-found. -/
theorem missing_fields_checked_first_witness :
    webhook_sms gwOk "http://localhost:5001" 3 5 (some "+19998887777")
        (some "   ") s0 = (s0, .error .missingFields) :=
  (missing_fields_checked_first gwOk "http://localhost:5001" 3 5).2.2.2.1
    s0 "+19998887777" "   " (by decide)

-- ### Webhook reduction lemmas

theorem webhook_success_shape {gw : Gateway} {base : String} {today now : Int}
    {ph b : String} {s : Store} {u : User} {c : Campaign}
    {p0 p1 p2 p3 : String} {rest : List String} {j a m : Int} {sid : String}
    (hph : ph ≠ "") (hb : pyStrip b ≠ "")
    (hu : s.users.find? (fun v => v.phone_number == ph) = some u)
    (hsplit : pySplit '/' (pyStrip b) = p0 :: p1 :: p2 :: p3 :: rest)
    (hj : pyInt p0 = some j) (ha : pyInt p1 = some a) (hm : pyInt p2 = some m)
    (hc : s.campaigns.find? (fun k => k.is_active) = some c)
    (hgw : gw u.phone_number
      (confirmation_message (feedback_url base u.id c.id)) = .ok sid) :
    webhook_sms gw base today now (some ph) (some b) s =
      ({ s with
         responses := s.responses ++
           [({ id := s.next_response_id, user_id := u.id, campaign_id := c.id,
               survey_date := today, joy_rating := j, achievement_rating := a,
               meaningfulness_rating := m, influence_text := pyStrip p3,
               submitted_at := now } : Response)],
         next_response_id := s.next_response_id + 1 },
       .ok ({ id := s.next_response_id, user_id := u.id, campaign_id := c.id,
              survey_date := today, joy_rating := j, achievement_rating := a,
              meaningfulness_rating := m, influence_text := pyStrip p3,
              submitted_at := now }, feedback_url base u.id c.id)) := by
  have h1 : pyFalsyStr (some ph) = false := by simp [pyFalsyStr, hph]
  have h2 : (pyStrip b == "") = false := by simp [hb]
  simp [webhook_sms, Option.getD_some, h1, h2, hu, hsplit, hj, ha, hm, hc, hgw]

theorem webhook_unknown_sender {gw : Gateway} {base : String} {today now : Int}
    {ph b : String} {s : Store}
    (hph : ph ≠ "") (hb : pyStrip b ≠ "")
    (hu : s.users.find? (fun v => v.phone_number == ph) = none) :
    webhook_sms gw base today now (some ph) (some b) s =
      (s, .error .userNotFound) := by
  have h1 : pyFalsyStr (some ph) = false := by simp [pyFalsyStr, hph]
  have h2 : (pyStrip b == "") = false := by simp [hb]
  simp [webhook_sms, Option.getD_some, h1, h2, hu]

theorem webhook_short_parts {gw : Gateway} {base : String} {today now : Int}
    {ph b : String} {s : Store} {u : User}
    (hph : ph ≠ "") (hb : pyStrip b ≠ "")
    (hu : s.users.find? (fun v => v.phone_number == ph) = some u)
    (hlen : (pySplit '/' (pyStrip b)).length < 4) :
    webhook_sms gw base today now (some ph) (some b) s =
      (s, .error .invalidFormat) := by
  have h1 : pyFalsyStr (some ph) = false := by simp [pyFalsyStr, hph]
  have h2 : (pyStrip b == "") = false := by simp [hb]
  rcases hsplit : pySplit '/' (pyStrip b) with _ | ⟨q0, _ | ⟨q1, _ | ⟨q2, _ | ⟨q3, qrest⟩⟩⟩⟩
  · simp [webhook_sms, Option.getD_some, h1, h2, hu, hsplit]
  · simp [webhook_sms, Option.getD_some, h1, h2, hu, hsplit]
  · simp [webhook_sms, Option.getD_some, h1, h2, hu, hsplit]
  · simp [webhook_sms, Option.getD_some, h1, h2, hu, hsplit]
  · rw [hsplit] at hlen
    simp only [List.length_cons] at hlen
    omega

theorem webhook_bad_int {gw : Gateway} {base : String} {today now : Int}
    {ph b : String} {s : Store} {u : User}
    {p0 p1 p2 p3 : String} {rest : List String}
    (hph : ph ≠ "") (hb : pyStrip b ≠ "")
    (hu : s.users.find? (fun v => v.phone_number == ph) = some u)
    (hsplit : pySplit '/' (pyStrip b) = p0 :: p1 :: p2 :: p3 :: rest)
    (hbad : pyInt p0 = none ∨ pyInt p1 = none ∨ pyInt p2 = none) :
    webhook_sms gw base today now (some ph) (some b) s =
      (s, .error .invalidFormat) := by
  have h1 : pyFalsyStr (some ph) = false := by simp [pyFalsyStr, hph]
  have h2 : (pyStrip b == "") = false := by simp [hb]
  rcases hbad with h | h | h
  · cases hj1 : pyInt p1 <;> cases hj2 : pyInt p2 <;>
      simp [webhook_sms, Option.getD_some, h1, h2, hu, hsplit, h, hj1, hj2]
  · cases hj0 : pyInt p0 <;> cases hj2 : pyInt p2 <;>
      simp [webhook_sms, Option.getD_some, h1, h2, hu, hsplit, h, hj0, hj2]
  · cases hj0 : pyInt p0 <;> cases hj1 : pyInt p1 <;>
      simp [webhook_sms, Option.getD_some, h1, h2, hu, hsplit, h, hj0, hj1]

theorem webhook_no_campaign {gw : Gateway} {base : String} {today now : Int}
    {ph b : String} {s : Store} {u : User}
    {p0 p1 p2 p3 : String} {rest : List String} {j a m : Int}
    (hph : ph ≠ "") (hb : pyStrip b ≠ "")
    (hu : s.users.find? (fun v => v.phone_number == ph) = some u)
    (hsplit : pySplit '/' (pyStrip b) = p0 :: p1 :: p2 :: p3 :: rest)
    (hj : pyInt p0 = some j) (ha : pyInt p1 = some a) (hm : pyInt p2 = some m)
    (hc : s.campaigns.find? (fun k => k.is_active) = none) :
    webhook_sms gw base today now (some ph) (some b) s =
      (s, .error .noActiveCampaign) := by
  have h1 : pyFalsyStr (some ph) = false := by simp [pyFalsyStr, hph]
  have h2 : (pyStrip b == "") = false := by simp [hb]
  simp [webhook_sms, Option.getD_some, h1, h2, hu, hsplit, hj, ha, hm, hc]

-- ### C3: a well-formed inbound message creates exactly one Response

/-- C3: For a known participant (resolved by sender address) and an active
campaign (first active one found), ingesting the body `8/7/9/Family time`
appends exactly one new Response row with joy 8, achievement 7,
meaningfulness 9, influence `Family time`, survey_date = today and
submission timestamp = now, and returns success with a feedback URL that
contains the participant's id and the campaign's id. -/
theorem ingest_success_creates_response (gw : Gateway) (base : String)
    (today now : Int) (ph : String) (s : Store) (u : User) (c : Campaign)
    (sid : String) (hph : ph ≠ "")
    (hu : s.users.find? (fun v => v.phone_number == ph) = some u)
    (hc : s.campaigns.find? (fun k => k.is_active) = some c)
    (hgw : gw u.phone_number
      (confirmation_message (feedback_url base u.id c.id)) = .ok sid) :
    webhook_sms gw base today now (some ph) (some "8/7/9/Family time") s =
      ({ s with
         responses := s.responses ++
           [({ id := s.next_response_id, user_id := u.id, campaign_id := c.id,
               survey_date := today, joy_rating := 8, achievement_rating := 7,
               meaningfulness_rating := 9, influence_text := "Family time",
               submitted_at := now } : Response)],
         next_response_id := s.next_response_id + 1 },
       .ok ({ id := s.next_response_id, user_id := u.id, campaign_id := c.id,
              survey_date := today, joy_rating := 8, achievement_rating := 7,
              meaningfulness_rating := 9, influence_text := "Family time",
              submitted_at := now }, feedback_url base u.id c.id)) ∧
    (∃ x y, feedback_url base u.id c.id = x ++ toString u.id ++ y) ∧
    (∃ x y, feedback_url base u.id c.id = x ++ toString c.id ++ y) := by
  refine ⟨?_, ⟨base ++ "/feedback/", "/" ++ toString c.id, ?_⟩,
    ⟨base ++ "/feedback/" ++ toString u.id ++ "/", "", ?_⟩⟩
  · exact webhook_success_shape hph
      (show pyStrip "8/7/9/Family time" ≠ "" by decide) hu
      (show pySplit '/' (pyStrip "8/7/9/Family time") =
        "8" :: "7" :: "9" :: "Family time" :: [] from rfl) rfl rfl rfl hc hgw
  · simp [feedback_url, String.append_assoc]
  · simp [feedback_url, String.append_assoc]

/-- C3 witness: the demo participant and campaign with the spec's example
body on the empty store. -/
theorem ingest_success_creates_response_witness :
    webhook_sms gwOk "http://localhost:5001" 3 5 (some "+15551234567")
        (some "8/7/9/Family time") s0 =
      ({ s0 with
         responses := s0.responses ++
           [({ id := s0.next_response_id, user_id := u1.id, campaign_id := c1.id,
               survey_date := 3, joy_rating := 8, achievement_rating := 7,
               meaningfulness_rating := 9, influence_text := "Family time",
               submitted_at := 5 } : Response)],
         next_response_id := s0.next_response_id + 1 },
       .ok ({ id := s0.next_response_id, user_id := u1.id, campaign_id := c1.id,
              survey_date := 3, joy_rating := 8, achievement_rating := 7,
              meaningfulness_rating := 9, influence_text := "Family time",
              submitted_at := 5 }, feedback_url "http://localhost:5001" u1.id c1.id)) :=
  (ingest_success_creates_response gwOk "http://localhost:5001" 3 5
    "+15551234567" s0 u1 c1 "SM1" (by decide) (by decide) (by decide) rfl).1

-- ### C10: segments are trimmed opportunistically, ratings unchecked

/-- C10: ingest strips surrounding whitespace from each of the first four
`/`-separated segments before use (the concrete example
` 8 / 7 / 9 / note ` parses to 8, 7, 9, `note`), and applies no range
validation: whatever integers the first three segments parse to —
negative, zero, above 10 — are persisted verbatim, with the stripped
fourth segment as influence text. -/
theorem ingest_trims_segments_no_range_check (gw : Gateway) (base : String)
    (today now : Int) (ph : String) (s : Store) (u : User) (c : Campaign)
    (sid : String) (hph : ph ≠ "")
    (hu : s.users.find? (fun v => v.phone_number == ph) = some u)
    (hc : s.campaigns.find? (fun k => k.is_active) = some c)
    (hgw : gw u.phone_number
      (confirmation_message (feedback_url base u.id c.id)) = .ok sid) :
    (webhook_sms gw base today now (some ph) (some " 8 / 7 / 9 / note ") s =
      ({ s with
         responses := s.responses ++
           [({ id := s.next_response_id, user_id := u.id, campaign_id := c.id,
               survey_date := today, joy_rating := 8, achievement_rating := 7,
               meaningfulness_rating := 9, influence_text := "note",
               submitted_at := now } : Response)],
         next_response_id := s.next_response_id + 1 },
       .ok ({ id := s.next_response_id, user_id := u.id, campaign_id := c.id,
              survey_date := today, joy_rating := 8, achievement_rating := 7,
              meaningfulness_rating := 9, influence_text := "note",
              submitted_at := now }, feedback_url base u.id c.id))) ∧
    (∀ (b p0 p1 p2 p3 : String) (rest : List String) (j a m : Int),
      pyStrip b ≠ "" →
      pySplit '/' (pyStrip b) = p0 :: p1 :: p2 :: p3 :: rest →
      pyInt p0 = some j → pyInt p1 = some a → pyInt p2 = some m →
      webhook_sms gw base today now (some ph) (some b) s =
        ({ s with
           responses := s.responses ++
             [({ id := s.next_response_id, user_id := u.id, campaign_id := c.id,
                 survey_date := today, joy_rating := j, achievement_rating := a,
                 meaningfulness_rating := m, influence_text := pyStrip p3,
                 submitted_at := now } : Response)],
           next_response_id := s.next_response_id + 1 },
         .ok ({ id := s.next_response_id, user_id := u.id, campaign_id := c.id,
                survey_date := today, joy_rating := j, achievement_rating := a,
                meaningfulness_rating := m, influence_text := pyStrip p3,
                submitted_at := now }, feedback_url base u.id c.id))) := by
  constructor
  · exact webhook_success_shape hph
      (show pyStrip " 8 / 7 / 9 / note " ≠ "" by decide) hu
      (show pySplit '/' (pyStrip " 8 / 7 / 9 / note ") =
        "8 " :: " 7 " :: " 9 " :: " note" :: [] from rfl) rfl rfl rfl hc hgw
  · intro b p0 p1 p2 p3 rest j a m hb hsplit hj ha hm
    exact webhook_success_shape hph hb hu hsplit hj ha hm hc hgw

/-- C10 witness: the trimming example and an out-of-range body `-5/0/99/x`
whose negative, zero and above-10 ratings are persisted verbatim. -/
theorem ingest_trims_segments_no_range_check_witness :
    webhook_sms gwOk "b" 3 5 (some "+15551234567") (some " 8 / 7 / 9 / note ") s0 =
      ({ s0 with
         responses := s0.responses ++
           [({ id := s0.next_response_id, user_id := u1.id, campaign_id := c1.id,
               survey_date := 3, joy_rating := 8, achievement_rating := 7,
               meaningfulness_rating := 9, influence_text := "note",
               submitted_at := 5 } : Response)],
         next_response_id := s0.next_response_id + 1 },
       .ok ({ id := s0.next_response_id, user_id := u1.id, campaign_id := c1.id,
              survey_date := 3, joy_rating := 8, achievement_rating := 7,
              meaningfulness_rating := 9, influence_text := "note",
              submitted_at := 5 }, feedback_url "b" u1.id c1.id)) ∧
    webhook_sms gwOk "b" 3 5 (some "+15551234567") (some "-5/0/99/x") s0 =
      ({ s0 with
         responses := s0.responses ++
           [({ id := s0.next_response_id, user_id := u1.id, campaign_id := c1.id,
               survey_date := 3, joy_rating := -5, achievement_rating := 0,
               meaningfulness_rating := 99, influence_text := pyStrip "x",
               submitted_at := 5 } : Response)],
         next_response_id := s0.next_response_id + 1 },
       .ok ({ id := s0.next_response_id, user_id := u1.id, campaign_id := c1.id,
              survey_date := 3, joy_rating := -5, achievement_rating := 0,
              meaningfulness_rating := 99, influence_text := pyStrip "x",
              submitted_at := 5 }, feedback_url "b" u1.id c1.id)) :=
  ⟨(ingest_trims_segments_no_range_check gwOk "b" 3 5 "+15551234567" s0 u1 c1
      "SM1" (by decide) (by decide) (by decide) rfl).1,
   (ingest_trims_segments_no_range_check gwOk "b" 3 5 "+15551234567" s0 u1 c1
      "SM1" (by decide) (by decide) (by decide) rfl).2
      "-5/0/99/x" "-5" "0" "99" "x" [] (-5) 0 99 (by decide) rfl rfl rfl rfl⟩

-- ### C4: every reconciliation failure aborts before any write

/-- C4: Each ingest failure kind — `UnknownSender` when the sender matches
no participant, `MalformedResponse` when the body has fewer than four
`/`-separated fields or one of the first three does not parse as an
integer, `NoActiveCampaign` when no campaign is flagged active — leaves
the store exactly as it was (zero Response rows written), and the three
kinds are pairwise distinguishable by the caller: distinct error messages,
with unknown sender mapped to not-found (404), malformed body to client
error (400), and no-active-campaign surfaced by the code as not-found
(404), matching the spec's §7 rather than its §4.2. -/
theorem ingest_failures_abort_before_write (gw : Gateway) (base : String)
    (today now : Int) (s : Store) :
    (∀ ph b : String, ph ≠ "" → pyStrip b ≠ "" →
      s.users.find? (fun v => v.phone_number == ph) = none →
      webhook_sms gw base today now (some ph) (some b) s =
        (s, .error .userNotFound)) ∧
    (∀ (ph b : String) (u : User), ph ≠ "" → pyStrip b ≠ "" →
      s.users.find? (fun v => v.phone_number == ph) = some u →
      (pySplit '/' (pyStrip b)).length < 4 →
      webhook_sms gw base today now (some ph) (some b) s =
        (s, .error .invalidFormat)) ∧
    (∀ (ph b : String) (u : User) (p0 p1 p2 p3 : String) (rest : List String),
      ph ≠ "" → pyStrip b ≠ "" →
      s.users.find? (fun v => v.phone_number == ph) = some u →
      pySplit '/' (pyStrip b) = p0 :: p1 :: p2 :: p3 :: rest →
      (pyInt p0 = none ∨ pyInt p1 = none ∨ pyInt p2 = none) →
      webhook_sms gw base today now (some ph) (some b) s =
        (s, .error .invalidFormat)) ∧
    (∀ (ph b : String) (u : User) (p0 p1 p2 p3 : String) (rest : List String)
        (j a m : Int),
      ph ≠ "" → pyStrip b ≠ "" →
      s.users.find? (fun v => v.phone_number == ph) = some u →
      pySplit '/' (pyStrip b) = p0 :: p1 :: p2 :: p3 :: rest →
      pyInt p0 = some j → pyInt p1 = some a → pyInt p2 = some m →
      s.campaigns.find? (fun k => k.is_active) = none →
      webhook_sms gw base today now (some ph) (some b) s =
        (s, .error .noActiveCampaign)) ∧
    (httpStatus .userNotFound = 404 ∧ httpStatus .invalidFormat = 400 ∧
      httpStatus .noActiveCampaign = 404 ∧
      errMessage .userNotFound ≠ errMessage .invalidFormat ∧
      errMessage .userNotFound ≠ errMessage .noActiveCampaign ∧
      errMessage .invalidFormat ≠ errMessage .noActiveCampaign) := by
  refine ⟨?_, ?_, ?_, ?_, rfl, rfl, rfl, by decide, by decide, by decide⟩
  · intro ph b hph hb hu
    exact webhook_unknown_sender hph hb hu
  · intro ph b u hph hb hu hlen
    exact webhook_short_parts hph hb hu hlen
  · intro ph b u p0 p1 p2 p3 rest hph hb hu hsplit hbad
    exact webhook_bad_int hph hb hu hsplit hbad
  · intro ph b u p0 p1 p2 p3 rest j a m hph hb hu hsplit hj ha hm hc
    exact webhook_no_campaign hph hb hu hsplit hj ha hm hc

/-- C4 witness: on concrete stores, all three failure kinds strike with
the store returned untouched — unknown sender 404, too-few fields 400,
non-integer rating 400, and no active campaign 404. -/
theorem ingest_failures_abort_before_write_witness :
    webhook_sms gwOk "b" 3 5 (some "+19998887777") (some "8/7/9/text") s0 =
      (s0, .error .userNotFound) ∧
    webhook_sms gwOk "b" 3 5 (some "+15551234567") (some "8/7") s0 =
      (s0, .error .invalidFormat) ∧
    webhook_sms gwOk "b" 3 5 (some "+15551234567") (some "x/7/9/t") s0 =
      (s0, .error .invalidFormat) ∧
    webhook_sms gwOk "b" 3 5 (some "+15551234567") (some "8/7/9/t") sNoCamp =
      (sNoCamp, .error .noActiveCampaign) :=
  ⟨(ingest_failures_abort_before_write gwOk "b" 3 5 s0).1
      "+19998887777" "8/7/9/text" (by decide) (by decide) (by decide),
   (ingest_failures_abort_before_write gwOk "b" 3 5 s0).2.1
      "+15551234567" "8/7" u1 (by decide) (by decide) (by decide) (by decide),
   (ingest_failures_abort_before_write gwOk "b" 3 5 s0).2.2.1
      "+15551234567" "x/7/9/t" u1 "x" "7" "9" "t" [] (by decide) (by decide)
      (by decide) rfl (Or.inl rfl),
   (ingest_failures_abort_before_write gwOk "b" 3 5 sNoCamp).2.2.2.1
      "+15551234567" "8/7/9/t" u1 "8" "7" "9" "t" [] 8 7 9 (by decide)
      (by decide) (by decide) rfl rfl rfl rfl (by decide)⟩

end SMS
